import Mathlib

/-!
Shallow embedding of the `django_microsoft_auth` authentication pipeline
(`microsoft_auth/client.py`, `microsoft_auth/backends.py`,
`microsoft_auth/views.py`) together with the behaviour of the pinned
external libraries the code calls into (PyJWT 1.7.1, Django's
`TimestampSigner` and CSRF constants), and theorems settling the claims
about it.

Python dictionaries are modelled as association lists; Python exceptions
are modelled with `Except Fault`; network responses and cryptographic
facts (signature validity, signer validity) are inputs of the embedded
functions.
-/

namespace MicrosoftAuth

/-- Association-list model of a Python `dict` with string keys. -/
abbrev Dict (α : Type) := List (String × α)

/-- Python `d[k]` as an optional lookup (first binding wins). -/
def dget {α : Type} (d : Dict α) (k : String) : Option α :=
  match d with
  | [] => none
  | (k0, v) :: rest => if k0 == k then some v else dget rest k

/-- Python `k in d`. -/
def dmem {α : Type} (d : Dict α) (k : String) : Bool :=
  (dget d k).isSome

/-- Python `d[k] = v` (replace the binding or append it). -/
def dset {α : Type} (d : Dict α) (k : String) (v : α) : Dict α :=
  match d with
  | [] => [(k, v)]
  | (k0, v0) :: rest => if k0 == k then (k0, v) :: rest else (k0, v0) :: dset rest k v

/-- Python exceptions that the embedded code can raise. -/
inductive Fault where
  /-- `KeyError` from a dict subscript on a missing key. -/
  | keyError (k : String)
  /-- `UnboundLocalError` / `NameError`: a local variable read before assignment. -/
  | nameError (v : String)
  /-- A network-level failure raised by the HTTP layer during a provider call. -/
  | network (msg : String)
  /-- An OAuth error raised by the client library for a provider error body. -/
  | oauthError (msg : String)
  /-- `TypeError` from library code handed a value of the wrong type. -/
  | typeError (msg : String)
  deriving DecidableEq, Repr

/-! ## `MicrosoftClient.valid_scopes` (client.py lines 148-150)

The source is `set(self.SCOPE_MICROSOFT) <= set(scopes)` where
`scopes : str`.  Iterating a Python `str` yields its characters, so
`set(scopes)` is the set of one-character strings of `scopes`. -/

/-- Required OAuth scopes, `MicrosoftClient.SCOPE_MICROSOFT` (client.py line 51). -/
def SCOPE_MICROSOFT : List String := ["openid", "email", "profile"]

/-- The set of one-character strings obtained by iterating a Python `str`,
as `set(scopes)` does in `valid_scopes`. -/
def charSet (s : String) : List String :=
  s.data.map (fun c => String.mk [c])

/-- Embedding of `MicrosoftClient.valid_scopes` (client.py lines 148-150):
`set(self.SCOPE_MICROSOFT) <= set(scopes)` with `scopes` a string, i.e. the
required scope words must all occur among the characters of `scopes`. -/
def valid_scopes (scopes : String) : Bool :=
  SCOPE_MICROSOFT.all (fun req => (charSet scopes).contains req)

/-! ## State validation, `AuthenticateCallbackView._check_csrf` (views.py lines 89-113) -/

/-- Abstract model of a signed state value presented to
`TimestampSigner.unsign`: the payload string, whether the signature
verifies, and the age in seconds at the time of the callback. -/
structure SignedState where
  value : String
  validSig : Bool
  age : Nat
  deriving DecidableEq, Repr

/-- Errors of Django's `TimestampSigner.unsign`. -/
inductive SignError where
  | badSignature
  | signatureExpired
  deriving DecidableEq, Repr

/-- Model of Django's `TimestampSigner.unsign(state, max_age)`: recovers the
signed payload, failing with `BadSignature` when the signature does not
verify and `SignatureExpired` when the age exceeds `max_age`. -/
def unsign (s : SignedState) (maxAge : Nat) : Except SignError String :=
  if !s.validSig then .error .badSignature
  else if s.age > maxAge then .error .signatureExpired
  else .ok s.value

/-- Django's `CSRF_TOKEN_LENGTH` constant (2 * CSRF_SECRET_LENGTH = 64 in the
Django 2.x line the package pins), imported by views.py line 12. -/
def CSRF_TOKEN_LENGTH : Nat := 64

/-- The check `re.search(r"[a-zA-Z0-9]", state)` of views.py line 102: the
string contains at least one ASCII alphanumeric character. -/
def hasAlnum (s : String) : Bool :=
  s.data.any (fun c => c.isAlpha || c.isDigit)

/-- Result of `_check_csrf`: whether the context message was set to the
`bad_state` error, and the value of the local variable `state` after
unsigning (the recovered CSRF token, or `""` on a signing failure). -/
structure CsrfResult where
  badState : Bool
  recovered : String
  deriving DecidableEq, Repr

/-- Embedding of the checks of `AuthenticateCallbackView._check_csrf`
(views.py lines 89-113) applied to the unsign outcome of a present `state`
value.  In the pinned Django 2.x line, `Signer.unsign(None)` raises an
uncaught `TypeError` (`self.sep not in signed_value`, with no string
coercion), so a request without a `state` field never reaches these
checks: that raised-fault path is modelled in `get_context_data`, and the
`none` branch below is unreachable from the composed pipeline.  Both
`except` branches set the local to `""`; the two checks are the
alphanumeric search and the comparison of `len(state)` with
`CSRF_TOKEN_LENGTH`; if either fails the message becomes the `bad_state`
error. -/
def check_csrf (state : Option SignedState) : CsrfResult :=
  let s : String :=
    match state with
    | none => ""
    | some st =>
      match unsign st 300 with
      | .ok v => v
      | .error _ => ""
  let checks := hasAlnum s && (s.length == CSRF_TOKEN_LENGTH)
  { badState := !checks, recovered := s }

/-! ## Identity tokens and `MicrosoftClient.get_claims` (client.py lines 99-129) -/

/-- A JSON Web Key of the provider's key set, with its key id.  The key
material itself stays abstract: whether a given token's signature verifies
under the matched key is recorded on the token model. -/
structure JWK where
  kid : String
  deriving DecidableEq, Repr

/-- Abstract model of an encoded identity token: the `kid` and `alg` of its
unverified header, the audience claim of its payload, the payload claims,
and the cryptographic fact `sigValid a` — whether its signature verifies
under algorithm `a` with the key its `kid` matches. -/
structure IdToken where
  kid : String
  alg : String
  aud : String
  claims : Dict String
  sigValid : String → Bool

/-- Errors raised by `jwt.decode` as subclasses of `PyJWTError` (the only
class the caller's `except jwt.PyJWTError` catches). -/
inductive JwtError where
  | invalidAlgorithm
  | invalidKey
  | invalidSignature
  | invalidAudience
  deriving DecidableEq, Repr

/-- The algorithm names registered by PyJWT 1.7.1 with the `cryptography`
backend available. -/
def registeredAlgs : List String :=
  ["none", "HS256", "HS384", "HS512", "RS256", "RS384", "RS512",
   "ES256", "ES384", "ES521", "ES512", "PS256", "PS384", "PS512"]

/-- The registered algorithms whose `prepare_key` in PyJWT 1.7.1 accepts the
RSA public-key object that `RSAAlgorithm.from_jwk` returns: the RSA PKCS1
and PSS families.  `HMACAlgorithm.prepare_key` calls `force_bytes` on the
key and raises `TypeError` for a non-string; `ECAlgorithm.prepare_key`
tries to load it as PEM bytes and also fails with a `TypeError`; neither
is a `PyJWTError`. -/
def rsaKeyAlgs : List String :=
  ["RS256", "RS384", "RS512", "PS256", "PS384", "PS512"]

/-- Model of PyJWT 1.7.1 `jwt.decode(token, key, algorithms=..., audience=...)`
(the version pinned by setup.py), called with the RSA public-key object
built from the matched JWK.  `_verify_signature` reads the algorithm name
from the token's own header; when the `algorithms` list is given, a header
algorithm outside it raises `InvalidAlgorithmError`, and when it is `None`
a deprecation warning is emitted and the header's choice is used as is.
An unregistered name raises `InvalidAlgorithmError` (via `KeyError` on the
registry); `alg = "none"` raises `InvalidKeyError` because a key object is
present.  All of those are `PyJWTError`s, returned in the inner `Except`.
For a registered non-RSA-family algorithm, `prepare_key` raises an
uncaught `TypeError` on the RSA key object — the outer fault.  Otherwise
the signature is verified under the header's algorithm and the `audience`
claim must equal the expected audience. -/
def jwt_decode (tok : IdToken) (algorithms : Option (List String)) (audience : String) :
    Except Fault (Except JwtError (Dict String)) :=
  if (match algorithms with
      | some algs => !(algs.contains tok.alg)
      | none => false) then
    .ok (.error .invalidAlgorithm)
  else if !(registeredAlgs.contains tok.alg) then
    .ok (.error .invalidAlgorithm)
  else if tok.alg == "none" then
    .ok (.error .invalidKey)
  else if !(rsaKeyAlgs.contains tok.alg) then
    .error (.typeError "Expected a string value")
  else if !(tok.sigValid tok.alg) then
    .ok (.error .invalidSignature)
  else if tok.aud != audience then
    .ok (.error .invalidAudience)
  else
    .ok (.ok tok.claims)

/-- The token dictionary produced by a successful code exchange: its string
fields (`scope`, `access_token`, `refresh_token`, `expires_at`) and the
encoded `id_token` (absent key modelled as `none`). -/
structure TokenResponse where
  fields : Dict String
  id_token : Option IdToken

/-- Embedding of `MicrosoftClient.get_claims` (client.py lines 99-129) given
the client's token and fetched key set.  When `self.token` is `None` the
function returns no claims.  `self.token["id_token"]` raises `KeyError` if
absent.  The `for` loop binds the local `jwk` only on a `kid` match, so
when no key matches, the following `if jwk is None` test raises
`UnboundLocalError` — the warning-and-return-None branch is unreachable.
The `jwt.decode` call spells the keyword `algoithm="RS256"`, which is not
PyJWT's `algorithms` parameter, so `algorithms` keeps its default `None`;
the `except jwt.PyJWTError` clause catches only `PyJWTError`s and maps
them to no claims — a `TypeError` out of `prepare_key` propagates. -/
def get_claims (token : Option TokenResponse) (keys : List JWK) (client_id : String) :
    Except Fault (Option (Dict String)) :=
  match token with
  | none => .ok none
  | some t =>
    match t.id_token with
    | none => .error (.keyError "id_token")
    | some tok =>
      match keys.find? (fun k => tok.kid == k.kid) with
      | none => .error (.nameError "jwk")
      | some _jwk =>
        match jwt_decode tok none client_id with
        | .error f => .error f
        | .ok (.error _) => .ok none
        | .ok (.ok claims) => .ok (some claims)

/-! ## Client environment: discovery document, key set and provider calls
(client.py lines 80-97, 131-146, 152-169) -/

/-- The network-facing inputs of one `MicrosoftClient` instance: the HTTP
status and body of the discovery-document fetch, the HTTP status and `keys`
array of the JWKS fetch, the configured client id, and the outcome of the
code-exchange POST performed by the OAuth2 session base class. -/
structure ClientEnv where
  discoveryOk : Bool
  discoveryDoc : Dict String
  jwksOk : Bool
  jwksKeys : List JWK
  client_id : String
  fetchResult : Except Fault TokenResponse

/-- Embedding of the cached property `MicrosoftClient.openid_config`
(client.py lines 80-89): the response body when the HTTP status is a
success, and the empty dictionary otherwise. -/
def openid_config (env : ClientEnv) : Dict String :=
  if env.discoveryOk then env.discoveryDoc else []

/-- Embedding of the cached property `MicrosoftClient.jwks` (client.py lines
91-97): `self.openid_config["jwks_uri"]` raises `KeyError` when the cached
document lacks the endpoint; otherwise the `keys` array on a successful
response and the empty list on a failed one. -/
def jwks (env : ClientEnv) : Except Fault (List JWK) :=
  match dget (openid_config env) "jwks_uri" with
  | none => .error (.keyError "jwks_uri")
  | some _ => .ok (if env.jwksOk then env.jwksKeys else [])

/-- Embedding of `MicrosoftClient.authorization_url` (client.py lines 131-136):
looks up `authorization_endpoint` in the cached discovery document (raising
`KeyError` when absent) and builds the redirect URL on it. -/
def authorization_url (env : ClientEnv) : Except Fault String :=
  match dget (openid_config env) "authorization_endpoint" with
  | none => .error (.keyError "authorization_endpoint")
  | some url => .ok url

/-- Embedding of `MicrosoftClient.fetch_token` (client.py lines 138-146):
looks up `token_endpoint` in the cached discovery document (raising
`KeyError` when absent), then performs the exchange, whose network or
provider faults propagate to the caller. -/
def fetch_token (env : ClientEnv) : Except Fault TokenResponse :=
  match dget (openid_config env) "token_endpoint" with
  | none => .error (.keyError "token_endpoint")
  | some _ => env.fetchResult

/-- A local user account as persisted by the store (django.contrib.auth user
extended by `MicrosoftAccountMixin`, models.py).  Nullable fields are
modelled as strings with `""` for the falsy/absent value, matching the
`if not user.microsoft_id` test in backends.py. -/
structure Account where
  username : String
  first_name : String
  last_name : String
  email : String
  microsoft_id : String
  microsoft_code : String
  microsoft_refresh : String
  microsoft_expires_at : String
  deriving DecidableEq, Repr

/-- Embedding of `MicrosoftClient.refresh_token` (client.py lines 152-169).
`net` is the outcome of the refresh POST done by the OAuth2 session base
class (`super().refresh_token(...)`); its network or provider faults
propagate — the code has no handler around the call.  On a delivered
payload containing both `refresh_token` and `access_token`, the `try`
block reads `expires_at` (a missing key raises `KeyError`, swallowed by
the bare `except` into `False` with nothing persisted) and saves the
updated account.  The result pairs the returned boolean with the persisted
account. -/
def refresh_token (env : ClientEnv) (net : Except Fault (Dict String)) (user : Account) :
    Except Fault (Bool × Account) :=
  match dget (openid_config env) "token_endpoint" with
  | none => .error (.keyError "token_endpoint")
  | some _ =>
    match net with
    | .error f => .error f
    | .ok payload =>
      if dmem payload "refresh_token" && dmem payload "access_token" then
        match dget payload "access_token", dget payload "refresh_token",
              dget payload "expires_at" with
        | some a, some r, some e =>
          .ok (true, { user with microsoft_code := a, microsoft_refresh := r,
                                 microsoft_expires_at := e })
        | _, _, _ => .ok (false, user)
      else
        .ok (false, user)

/-! ## User reconciliation, `MicrosoftAuthenticationBackend` (backends.py) -/

/-- Python `s.split(" ", 1)`: at most one split, on the first space. -/
def split_first (s : String) : List String :=
  match s.data.findIdx? (fun c => c == ' ') with
  | none => [s]
  | some i => [String.mk (s.data.take i), String.mk (s.data.drop (i + 1))]

/-- Character class `[a-zA-Z0-9_.+-]` of the email pattern (backends.py
line 106). -/
def emailLocalChar (c : Char) : Bool :=
  c.isAlpha || c.isDigit || c == '_' || c == '.' || c == '+' || c == '-'

/-- Character class `[a-zA-Z0-9-]` of the email pattern. -/
def emailHostChar (c : Char) : Bool :=
  c.isAlpha || c.isDigit || c == '-'

/-- Character class `[a-zA-Z0-9-.]` of the email pattern. -/
def emailTailChar (c : Char) : Bool :=
  c.isAlpha || c.isDigit || c == '-' || c == '.'

/-- The regular expression
`^[a-zA-Z0-9_.+-]+@[a-zA-Z0-9-]+\.[a-zA-Z0-9-.]+$` of backends.py line 106
as a language: since `@` occurs in no class the string splits at a unique
`@`; since `.` is not a host character the host part is exactly the domain
segment before its first dot, and the tail is everything after it. -/
def email_re (s : String) : Bool :=
  match s.splitOn "@" with
  | [loc, dom] =>
    (!loc.isEmpty && loc.data.all emailLocalChar) &&
    (match dom.data.findIdx? (fun c => c == '.') with
     | none => false
     | some i =>
       decide (0 < i) && (dom.data.take i).all emailHostChar &&
       !(dom.data.drop (i + 1)).isEmpty && (dom.data.drop (i + 1)).all emailTailChar)
  | _ => false

/-- Replace the account whose username is `uname` in the store. -/
def store_replace (store : List Account) (uname : String) (u : Account) : List Account :=
  store.map (fun a => if a.username == uname then u else a)

/-- Embedding of `MicrosoftAuthenticationBackend._get_user_from_microsoft`
(backends.py lines 90-139) over a user store keyed by the unique
`username`.  The account found by `microsoft_id == data["sub"]` skips the
whole creation block — including the `microsoft_id` and empty-names
backfills, which live inside `if user is None:` — and only has its three
token fields overwritten and saved.  Otherwise the record is obtained by
`get_or_create(username=preferred_username, defaults=...)`; creating a
record whose truncated username collides with an existing one raises
`IntegrityError`, caught and turned into no user.  Missing `sub` or
`preferred_username` claims raise `KeyError` (the `try` catches only
`IntegrityError`).  Returns the authenticated account (if any) and the
resulting store. -/
def get_user_from_microsoft (store : List Account) (data : Dict String)
    (ms_token refresh_tok expires : String) :
    Except Fault (Option Account × List Account) :=
  match dget data "sub" with
  | none => .error (.keyError "sub")
  | some sub =>
    match store.find? (fun u => u.microsoft_id == sub) with
    | some user =>
      let u1 := { user with microsoft_code := ms_token, microsoft_refresh := refresh_tok,
                            microsoft_expires_at := expires }
      .ok (some u1, store_replace store user.username u1)
    | none =>
      let namepart := split_first ((dget data "name").getD "")
      let first_name := namepart.headD ""
      let last_name := if namepart.length > 1 then namepart.getD 1 "" else ""
      match dget data "preferred_username" with
      | none => .error (.keyError "preferred_username")
      | some pu =>
        let email := if email_re pu then pu else ""
        match store.find? (fun u => u.username == pu) with
        | some u0 =>
          let u1 := if u0.microsoft_id == "" then { u0 with microsoft_id := sub } else u0
          let u2 :=
            if u1.first_name == "" && u1.last_name == "" then
              { u1 with first_name := first_name, last_name := last_name }
            else u1
          let u3 := { u2 with microsoft_code := ms_token, microsoft_refresh := refresh_tok,
                              microsoft_expires_at := expires }
          .ok (some u3, store_replace store u0.username u3)
        | none =>
          let uname := String.mk (pu.data.take 150)
          if store.any (fun u => u.username == uname) then
            .ok (none, store)
          else
            let u0 : Account :=
              { username := uname, first_name := first_name, last_name := last_name,
                email := email, microsoft_id := sub, microsoft_code := ms_token,
                microsoft_refresh := refresh_tok, microsoft_expires_at := expires }
            let u1 := if u0.microsoft_id == "" then { u0 with microsoft_id := sub } else u0
            let u2 :=
              if u1.first_name == "" && u1.last_name == "" then
                { u1 with first_name := first_name, last_name := last_name }
              else u1
            let u3 := { u2 with microsoft_code := ms_token, microsoft_refresh := refresh_tok,
                                microsoft_expires_at := expires }
            .ok (some u3, store ++ [u3])

/-- Embedding of `MicrosoftAuthenticationBackend.authenticate` (backends.py
lines 40-75).  Without a code there is no user.  The code exchange's
faults propagate; `token["scope"]` raises `KeyError` when absent; scope
validation gates the defaults for `expires_at` and `refresh_token` and the
call into `_authenticate_user`, which fetches the key set, verifies the
identity token and reconciles the user. -/
def backend_authenticate (env : ClientEnv) (store : List Account) (code : Option String) :
    Except Fault (Option Account × List Account) :=
  match code with
  | none => .ok (none, store)
  | some _ =>
    match fetch_token env with
    | .error f => .error f
    | .ok token =>
      match dget token.fields "scope" with
      | none => .error (.keyError "scope")
      | some scopeStr =>
        let scope := valid_scopes scopeStr
        let expires :=
          if dmem token.fields "expires_at" && scope then
            (dget token.fields "expires_at").getD "0"
          else "0"
        let refresh :=
          if dmem token.fields "refresh_token" && scope then
            (dget token.fields "refresh_token").getD ""
          else ""
        if dmem token.fields "access_token" && scope then
          match jwks env with
          | .error f => .error f
          | .ok keys =>
            match get_claims (some token) keys env.client_id with
            | .error f => .error f
            | .ok none => .ok (none, store)
            | .ok (some claims) =>
              get_user_from_microsoft store claims
                ((dget token.fields "access_token").getD "") refresh expires
        else
          .ok (none, store)

/-! ## Callback view, `AuthenticateCallbackView` (views.py lines 25-150) -/

/-- The context message dictionary: values are `Option String` so that a key
set to Python's `None` (as `error_description` can be) is distinguished
from an absent key. -/
abbrev Msg := Dict (Option String)

/-- The known-messages table `AuthenticateCallbackView.messages` (views.py
lines 34-47). -/
def messages : Dict String :=
  [("bad_state",
    "An invalid state variable was provided. Please refresh the page and try again later."),
   ("missing_code",
    "No authentication code was provided from Microsoft. Please try again."),
   ("login_failed",
    "Failed to authenticate you for an unknown reason. Please try again later.")]

/-- Embedding of `AuthenticateCallbackView._check_microsoft_response`
(views.py lines 115-121): when no error is recorded yet and the provider
echoed one, the message becomes the provider's error code and description —
the `error_description` key is always set, possibly to `None`. -/
def check_microsoft_response (msg : Msg) (error errdesc : Option String) : Msg :=
  if dmem msg "error" then msg
  else
    match error with
    | none => msg
    | some e => [("error", some e), ("error_description", errdesc)]

/-- Embedding of `AuthenticateCallbackView._authenticate` (views.py lines
123-136) over the backend: when no error is recorded yet, a missing code
yields the `missing_code` error; otherwise the backend runs — its faults
propagate through Django's `authenticate` — and a `None` user yields
`login_failed` while a user logs in leaving the message unchanged. -/
def view_authenticate (env : ClientEnv) (store : List Account) (msg : Msg)
    (code : Option String) : Except Fault (Msg × List Account) :=
  if dmem msg "error" then .ok (msg, store)
  else
    match code with
    | none => .ok ([("error", some "missing_code")], store)
    | some c =>
      match backend_authenticate env store (some c) with
      | .error f => .error f
      | .ok (none, store1) => .ok ([("error", some "login_failed")], store1)
      | .ok (some _, store1) => .ok (msg, store1)

/-- Embedding of the back-fill step of
`AuthenticateCallbackView.get_context_data` (views.py lines 76-82): only
when the message carries an `error` key and no `error_description` key at
all is the description filled from the `messages` table; looking up an
unknown error code there would raise `KeyError`. -/
def backfill_description (msg : Msg) : Except Fault Msg :=
  if dmem msg "error" && !(dmem msg "error_description") then
    match dget msg "error" with
    | some (some e) =>
      match dget messages e with
      | some m => .ok (dset msg "error_description" (some m))
      | none => .error (.keyError e)
    | some none => .error (.keyError "None")
    | none => .ok msg
  else
    .ok msg

/-- Embedding of `AuthenticateCallbackView.get_context_data` (views.py lines
56-87) composed over the whole pipeline: CSRF/state validation, the
provider-error check, authentication via the backend, and the
error-description back-fill.  A request without a `state` field passes
`None` into `TimestampSigner.unsign`, whose `self.sep not in signed_value`
test raises a `TypeError` in the pinned Django 2.x line — not a
`BadSignature`, so neither `except` clause of `_check_csrf` catches it and
it crosses the boundary.  Returns the final context message and the
resulting user store; faults raised anywhere inside cross the boundary. -/
def get_context_data (env : ClientEnv) (store : List Account) (state : Option SignedState)
    (error errdesc code : Option String) : Except Fault (Msg × List Account) :=
  match state with
  | none => .error (.typeError "argument of type NoneType is not iterable")
  | some st =>
    let msg0 : Msg := []
    let msg1 := if (check_csrf (some st)).badState then [("error", some "bad_state")] else msg0
    let msg2 := check_microsoft_response msg1 error errdesc
    match view_authenticate env store msg2 code with
    | .error f => .error f
    | .ok (msg3, store1) =>
      match backfill_description msg3 with
      | .error f => .error f
      | .ok msg4 => .ok (msg4, store1)

/-! ## Concrete fixtures used by witnesses and counterexamples -/

/-- A discovery document carrying all three endpoints. -/
def sampleDoc : Dict String :=
  [("authorization_endpoint", "https://auth"), ("token_endpoint", "https://token"),
   ("jwks_uri", "https://jwks")]

/-- A client whose discovery fetch succeeded and whose code exchange fails
with a network fault. -/
def sampleEnv : ClientEnv :=
  { discoveryOk := true, discoveryDoc := sampleDoc, jwksOk := true,
    jwksKeys := [{ kid := "k1" }], client_id := "cid",
    fetchResult := .error (.network "boom") }

/-- A client whose discovery fetch returned a non-success status. -/
def emptyDiscoveryEnv : ClientEnv :=
  { sampleEnv with discoveryOk := false }

/-- A CSRF token of the expected length, all ASCII alphanumerics. -/
def goodToken : String := String.mk (List.replicate 64 'a')

/-- A fresh, correctly signed state over `goodToken`. -/
def goodState : SignedState := { value := goodToken, validSig := true, age := 0 }

/-- A CSRF token of 63 characters and 64 UTF-8 bytes. -/
def accentToken : String := "é" ++ String.mk (List.replicate 62 'a')

/-- A stored account with tokens to refresh. -/
def sampleAccount : Account :=
  { username := "u1", first_name := "fn", last_name := "ln", email := "",
    microsoft_id := "m1", microsoft_code := "c0", microsoft_refresh := "r0",
    microsoft_expires_at := "e0" }

/-- An account linked to subject id `abc123` whose names are both empty. -/
def janeAccount : Account :=
  { username := "jane", first_name := "", last_name := "", email := "",
    microsoft_id := "abc123", microsoft_code := "", microsoft_refresh := "",
    microsoft_expires_at := "" }

/-- Verified claims for `janeAccount`'s subject carrying a display name. -/
def janeClaims : Dict String :=
  [("sub", "abc123"), ("name", "Jane Doe"), ("preferred_username", "jane")]

/-- The account produced for `janeClaims` by the reconciliation code. -/
def janeResult : Account :=
  { janeAccount with microsoft_code := "t", microsoft_refresh := "r",
                     microsoft_expires_at := "e" }

/-- An identity token whose header declares RS384 and whose signature is a
valid RS384 signature under the matched RSA key, but not a valid RS256
one. -/
def rs384Token : IdToken :=
  { kid := "k1", alg := "RS384", aud := "cid", claims := [("sub", "s1")],
    sigValid := fun a => a == "RS384" }

/-- An identity token whose header declares HS256, routing `prepare_key`
onto the HMAC algorithm with the RSA key object. -/
def hsToken : IdToken :=
  { kid := "k1", alg := "HS256", aud := "cid", claims := [("sub", "s1")],
    sigValid := fun _ => false }

/-- An identity token whose `kid` matches no fetched key. -/
def unknownKidToken : IdToken :=
  { kid := "kx", alg := "RS256", aud := "cid", claims := [("sub", "s")],
    sigValid := fun _ => false }

/-! ## Theorems settling the claims -/

/-- Claim C1: `valid_scopes` compares the required scope words against the
set of single characters of its string argument, so it returns `false`
even for the fully granted scope string `"openid email profile"` (the
claim's required-true case), as well as for `"openid profile"`. -/
theorem c1_valid_scopes_rejects_granted_scopes :
    valid_scopes "openid email profile" = false ∧ valid_scopes "openid profile" = false := by
  decide

/-- Helper: `valid_scopes` can never hold, since every member of the
character set of a string has exactly one character while every required
scope word has more than one. -/
theorem valid_scopes_always_false (s : String) : valid_scopes s = false := by
  rw [valid_scopes, SCOPE_MICROSOFT]
  simp only [List.all_cons, List.all_nil, Bool.and_eq_false_iff]; left
  rw [Bool.eq_false_iff]
  intro hcon
  obtain ⟨t, ht, hbeq⟩ := List.contains_iff_exists_mem_beq.mp hcon
  obtain ⟨c, _, hc⟩ := List.mem_map.mp ht
  have hts : "openid" = t := by exact_mod_cast beq_iff_eq.mp hbeq
  have := congrArg String.length (hts.trans hc.symm)
  simp [String.length] at this

/-- Claim C3: an identity token whose `kid` matches no key in the fetched
key set makes `get_claims` raise (`UnboundLocalError` on the local `jwk`)
instead of logging a warning and returning no claims. -/
theorem c3_unknown_kid_raises :
    get_claims (some { fields := [], id_token := some unknownKidToken }) [{ kid := "k1" }] "cid"
      = .error (.nameError "jwk") := by
  rfl

/-- Claim C4: the `jwt.decode` call spells the keyword `algoithm`, so PyJWT
1.7.1 receives `algorithms=None` and verifies with the algorithm named in
the token's own header: a token that is not validly RS256-signed but is
validly RS384-signed under the matched RSA key still yields claims. -/
theorem c4_header_algorithm_used :
    rs384Token.sigValid "RS256" = false ∧
    get_claims (some { fields := [], id_token := some rs384Token }) [{ kid := "k1" }] "cid"
      = .ok (some [("sub", "s1")]) := by
  exact ⟨by decide, by rfl⟩

/-- Helper: for a header declaring HS256 the unpinned algorithm routes the
RSA key object into `HMACAlgorithm.prepare_key`, whose `TypeError` is not
a `PyJWTError` and so propagates out of `get_claims`. -/
theorem hs256_header_prepare_key_raises :
    get_claims (some { fields := [], id_token := some hsToken }) [{ kid := "k1" }] "cid"
      = .error (.typeError "Expected a string value") := by
  rfl

/-- Claim C10: with an empty cached discovery document (failed discovery
fetch), the key-set fetch, the authorization URL, the code exchange and
the token refresh all raise a `KeyError` on the endpoint lookup rather
than returning an empty key set or a failure value. -/
theorem c10_empty_discovery_raises_key_errors (env : ClientEnv)
    (h : env.discoveryOk = false) :
    jwks env = .error (.keyError "jwks_uri") ∧
    authorization_url env = .error (.keyError "authorization_endpoint") ∧
    fetch_token env = .error (.keyError "token_endpoint") ∧
    ∀ net user, refresh_token env net user = .error (.keyError "token_endpoint") := by
  have hcfg : openid_config env = [] := by simp [openid_config, h]
  refine ⟨?_, ?_, ?_, fun net user => ?_⟩ <;>
    simp [jwks, authorization_url, fetch_token, refresh_token, hcfg, dget]

/-- Witness for C10 at a concrete environment. -/
theorem c10_empty_discovery_raises_key_errors_witness :
    jwks emptyDiscoveryEnv = .error (.keyError "jwks_uri") ∧
    authorization_url emptyDiscoveryEnv = .error (.keyError "authorization_endpoint") ∧
    fetch_token emptyDiscoveryEnv = .error (.keyError "token_endpoint") ∧
    ∀ net user, refresh_token emptyDiscoveryEnv net user = .error (.keyError "token_endpoint") :=
  c10_empty_discovery_raises_key_errors emptyDiscoveryEnv rfl

/-- Claim C5, counterexample: a correctly signed, fresh state whose token
has byte length exactly `CSRF_TOKEN_LENGTH` and contains alphanumerics is
nonetheless rejected as `bad_state`, because the code compares the
character count, not the byte count (the token has 63 characters in 64
UTF-8 bytes). -/
theorem c5_byte_length_state_rejected :
    accentToken.utf8ByteSize = CSRF_TOKEN_LENGTH ∧ hasAlnum accentToken = true ∧
    (check_csrf (some { value := accentToken, validSig := true, age := 0 })).badState = true := by
  refine ⟨by decide, by decide, by decide⟩

/-- Claim C5 as amended: for every correctly signed state aged at most 300
seconds whose token has character length exactly `CSRF_TOKEN_LENGTH` and
at least one alphanumeric character, validation produces no `bad_state`
error and recovers the original token. -/
theorem c5_valid_state_accepted (st : SignedState) (h1 : st.validSig = true)
    (h2 : st.age ≤ 300) (h3 : hasAlnum st.value = true)
    (h4 : st.value.length = CSRF_TOKEN_LENGTH) :
    check_csrf (some st) = { badState := false, recovered := st.value } := by
  have hage : ¬ st.age > 300 := Nat.not_lt.mpr h2
  simp [check_csrf, unsign, h1, h3, h4, hage]

/-- Witness for the amended C5 at a fresh 64-character alphanumeric token. -/
theorem c5_valid_state_accepted_witness :
    check_csrf (some goodState) = { badState := false, recovered := goodToken } :=
  c5_valid_state_accepted goodState rfl (by decide) (by decide) (by decide)

/-- Claim C7: a delivered refresh response missing the `refresh_token`
field leaves the persisted account unchanged and returns failure. -/
theorem c7_missing_refresh_leaves_account_unchanged (env : ClientEnv)
    (payload : Dict String) (user : Account)
    (h1 : dmem (openid_config env) "token_endpoint" = true)
    (h2 : dmem payload "refresh_token" = false) :
    refresh_token env (.ok payload) user = .ok (false, user) := by
  rw [dmem, Option.isSome_iff_exists] at h1
  obtain ⟨t, ht⟩ := h1
  simp [refresh_token, ht, h2]

/-- Witness for C7 at a concrete environment, payload and account. -/
theorem c7_missing_refresh_leaves_account_unchanged_witness :
    refresh_token sampleEnv (.ok [("access_token", "a2")]) sampleAccount
      = .ok (false, sampleAccount) :=
  c7_missing_refresh_leaves_account_unchanged sampleEnv [("access_token", "a2")]
    sampleAccount (by decide) (by decide)

/-- Claim C6, counterexample: a network failure during the refresh POST is
not turned into a failure value — the fault propagates out of
`refresh_token` uncaught. -/
theorem c6_network_failure_raises :
    refresh_token sampleEnv (.error (.network "timeout")) sampleAccount
      = .error (.network "timeout") := by
  rfl

/-- Claim C6 as amended: every delivered refresh response yields a returned
boolean without raising, and the call succeeds only when the response
contains both a new access token and a new refresh token; a network
failure, however, propagates as a raised fault. -/
theorem c6_success_needs_both_tokens (env : ClientEnv) (payload : Dict String)
    (user : Account) (h : dmem (openid_config env) "token_endpoint" = true) :
    (∃ b u, refresh_token env (.ok payload) user = .ok (b, u)) ∧
    (∀ b u, refresh_token env (.ok payload) user = .ok (b, u) → b = true →
      dmem payload "refresh_token" = true ∧ dmem payload "access_token" = true) := by
  rw [dmem, Option.isSome_iff_exists] at h
  obtain ⟨t, ht⟩ := h
  by_cases hc : dmem payload "refresh_token" && dmem payload "access_token"
  · have hboth := Bool.and_eq_true_iff.mp hc
    constructor
    · rcases ha : dget payload "access_token" with _ | a <;>
        rcases hr : dget payload "refresh_token" with _ | r <;>
        rcases he : dget payload "expires_at" with _ | e <;>
        simp [refresh_token, ht, hc, ha, hr, he]
    · intro b u _ _
      exact ⟨hboth.1, hboth.2⟩
  · rw [Bool.not_eq_true] at hc
    constructor
    · exact ⟨false, user, by simp [refresh_token, ht, hc]⟩
    · intro b u hres hb
      simp [refresh_token, ht, hc] at hres
      rw [hb] at hres
      exact absurd hres.1 (by decide)

/-- Witness for the amended C6 at a concrete payload missing the refresh
token. -/
theorem c6_success_needs_both_tokens_witness :
    (∃ b u, refresh_token sampleEnv (.ok [("access_token", "a2")]) sampleAccount = .ok (b, u)) ∧
    (∀ b u, refresh_token sampleEnv (.ok [("access_token", "a2")]) sampleAccount = .ok (b, u) →
      b = true →
      dmem [("access_token", "a2")] "refresh_token" = true ∧
      dmem [("access_token", "a2")] "access_token" = true) :=
  c6_success_needs_both_tokens sampleEnv [("access_token", "a2")] sampleAccount (by decide)

/-- Claim C8, counterexample: a callback with valid state,
`error=access_denied` and no `error_description` produces a message whose
`error_description` value is `None` — the provider-error branch always
sets the key, so the back-fill (which requires the key to be absent) never
runs and no localized message is filled in. -/
theorem c8_description_stays_null :
    get_context_data sampleEnv [] (some goodState) (some "access_denied") none (some "c")
      = .ok ([("error", some "access_denied"), ("error_description", none)], []) := by
  rfl

/-- Claim C8 as amended: for every callback with a passing state check, a
provider-echoed error and no `error_description`, the outcome is a failure
carrying the provider's error code with a `None` description passed
through unchanged; the known-messages back-fill applies only when the
`error_description` key is absent, which holds only for the internally
produced errors. -/
theorem c8_provider_error_passthrough (env : ClientEnv) (store : List Account)
    (st : SignedState) (e : String) (code : Option String)
    (h : (check_csrf (some st)).badState = false) :
    get_context_data env store (some st) (some e) none code
      = .ok ([("error", some e), ("error_description", none)], store) := by
  simp [get_context_data, h, check_microsoft_response, view_authenticate,
        backfill_description, dmem, dget, dset]

/-- Witness for the amended C8 at a concrete environment and state. -/
theorem c8_provider_error_passthrough_witness :
    get_context_data sampleEnv [] (some goodState) (some "access_denied") none (some "c")
      = .ok ([("error", some "access_denied"), ("error_description", none)], []) :=
  c8_provider_error_passthrough sampleEnv [] goodState "access_denied" (some "c") (by decide)

/-- Claim C9, counterexample: an existing account found by
`microsoft_id == claims.sub` whose stored names are both empty keeps them
empty — the claims carry the display name `"Jane Doe"`, yet the
reconciled account's names stay `""` because the backfill block sits
inside the not-found branch. -/
theorem c9_names_not_backfilled :
    janeAccount.first_name = "" ∧ janeAccount.last_name = "" ∧
    dget janeClaims "name" = some "Jane Doe" ∧
    get_user_from_microsoft [janeAccount] janeClaims "t" "r" "e"
      = .ok (some janeResult, [janeResult]) ∧
    janeResult.first_name = "" ∧ janeResult.last_name = "" := by
  refine ⟨rfl, rfl, rfl, by rfl, rfl, rfl⟩

/-- Claim C9 as amended: an account found by linked subject id
(`microsoft_id == claims.sub`) is persisted with only its three stored
token fields overwritten — its names (empty or not) are never backfilled
from the claims; the empty-names backfill applies only to accounts
obtained through the username-keyed create-or-get. -/
theorem c9_found_by_subject_keeps_names (store : List Account) (data : Dict String)
    (mt rt ex sub : String) (u : Account)
    (hsub : dget data "sub" = some sub)
    (hfind : store.find? (fun a => a.microsoft_id == sub) = some u) :
    get_user_from_microsoft store data mt rt ex
      = .ok (some { u with microsoft_code := mt, microsoft_refresh := rt,
                           microsoft_expires_at := ex },
             store_replace store u.username
               { u with microsoft_code := mt, microsoft_refresh := rt,
                        microsoft_expires_at := ex }) := by
  simp [get_user_from_microsoft, hsub, hfind]

/-- Witness for the amended C9 at the concrete store and claims. -/
theorem c9_found_by_subject_keeps_names_witness :
    get_user_from_microsoft [janeAccount] janeClaims "t" "r" "e"
      = .ok (some { janeAccount with microsoft_code := "t", microsoft_refresh := "r",
                                     microsoft_expires_at := "e" },
             store_replace [janeAccount] janeAccount.username
               { janeAccount with microsoft_code := "t", microsoft_refresh := "r",
                                  microsoft_expires_at := "e" }) :=
  c9_found_by_subject_keeps_names [janeAccount] janeClaims "t" "r" "e" "abc123"
    janeAccount (by rfl) (by rfl)

/-- Claim C2, counterexample: with a valid state and a code present, a
network fault raised by the code-exchange POST propagates uncaught through
the backend and the view — the service raises instead of reporting a
failure outcome. -/
theorem c2_exchange_fault_crosses_boundary :
    get_context_data sampleEnv [] (some goodState) none none (some "c")
      = .error (.network "boom") := by
  rfl

/-- Helper: a callback request without a `state` field raises the
`TypeError` of `Signer.unsign(None)` across the service boundary. -/
theorem missing_state_field_raises (env : ClientEnv) (store : List Account)
    (error errdesc code : Option String) :
    get_context_data env store none error errdesc code
      = .error (.typeError "argument of type NoneType is not iterable") := by
  rfl

/-- Claim C2 as amended: for a request that carries a state field, every
outcome produced before the code exchange begins — a failed state check, a
provider-echoed error, or a missing code — is a reported message, never a
raised fault; but a request without a state field raises a `TypeError`
inside state validation, and once a code is present and the exchange
starts, its faults (and those of the key-set and claims steps) propagate
out of the service. -/
theorem c2_short_circuit_outcomes_reported (env : ClientEnv) (store : List Account)
    (st : SignedState) (error errdesc code : Option String)
    (h : code = none ∨ (check_csrf (some st)).badState = true ∨ error.isSome = true) :
    ∃ r, get_context_data env store (some st) error errdesc code = .ok r := by
  by_cases hbad : (check_csrf (some st)).badState
  · exact ⟨_, by simp [get_context_data, hbad, check_microsoft_response,
      view_authenticate, backfill_description, dmem, dget, messages, dset]; rfl⟩
  · rcases error with _ | e
    · have hcode : code = none := by
        rcases h with h | h | h
        · exact h
        · exact absurd h hbad
        · exact absurd h (by simp)
      subst hcode
      exact ⟨_, by simp [get_context_data, hbad, check_microsoft_response,
        view_authenticate, backfill_description, dmem, dget, messages, dset]; rfl⟩
    · exact ⟨_, by simp [get_context_data, hbad, check_microsoft_response,
        view_authenticate, backfill_description, dmem, dget, dset]; rfl⟩

/-- Witness for the amended C2: a callback without a code reports the
`missing_code` failure. -/
theorem c2_short_circuit_outcomes_reported_witness :
    ∃ r, get_context_data sampleEnv [] (some goodState) none none none = .ok r :=
  c2_short_circuit_outcomes_reported sampleEnv [] goodState none none none
    (Or.inl rfl)

end MicrosoftAuth
